import Mathlib

/-!
Shallow embedding of the query layer of `src/queries.js`: a Mongoose data-access
class over two MongoDB collections (souvenirs, carts).  Documents are modelled
as Lean structures, the collections as lists, and each query method as a pure
function on a `DB` value.  MongoDB numerics are modelled as `ℚ`, ObjectIds as
`Nat`, dates as `Int` timestamps.  Nondeterministic inputs of `addReview`
(the generated uuid and the current date) are passed as explicit parameters.
Failures are modelled with `Except QueryError`: `notFound` is the structured
error kind the specification names, `typeError` is the unstructured JavaScript
TypeError raised when the code dereferences a property of `undefined`
(for example `aggregateResult[0].rating` when the aggregate returned no rows).
-/

/-- Error outcomes of the query layer: the structured NotFound kind named by
the specification, versus the unstructured JavaScript TypeError raised when a
property of `undefined` is dereferenced. -/
inductive QueryError where
  | notFound
  | typeError
deriving DecidableEq, Repr

/-- Review subdocument of a souvenir (schema, src/queries.js lines 14-22).
The schema declares `isApproved : Boolean` with no default value, so a review
written without that field simply lacks it; the field is therefore modelled as
`Option Bool`, with `none` meaning the field is absent from the document. -/
structure Review where
  id : String
  login : String
  date : Int
  text : String
  rating : ℚ
  isApproved : Option Bool
deriving DecidableEq, Repr

/-- Souvenir document (schema, src/queries.js lines 11-30). -/
structure Souvenir where
  _id : Nat
  name : String
  tags : List String
  reviews : List Review
  image : String
  price : ℚ
  amount : ℚ
  country : String
  rating : ℚ
  isRecent : Bool
deriving DecidableEq, Repr

/-- Cart line item (schema, src/queries.js lines 35-38). -/
structure CartItem where
  souvenirId : Nat
  amount : ℚ
deriving DecidableEq, Repr

/-- Cart document (schema, src/queries.js lines 33-39); one per login,
enforced by a unique index on `login`. -/
structure Cart where
  login : String
  items : List CartItem
deriving DecidableEq, Repr

/-- State of the store: the two collections the class holds handles to. -/
structure DB where
  souvenirs : List Souvenir
  carts : List Cart
deriving DecidableEq, Repr

/-- Result document of MongoDB `deleteMany`: acknowledgement flag and the
number of documents removed. -/
structure DeleteResult where
  acknowledged : Bool
  deletedCount : Nat
deriving DecidableEq, Repr

/-- Embedding of `getTopRatingSouvenirs`'s `.sort(\x7b rating: -1 \x7d)`:
descending comparison on the `rating` field. -/
def ratingGe (a b : Souvenir) : Bool := decide (b.rating ≤ a.rating)

/-- Embedding of MongoDB `cursor.limit(n)`: `limit(0)` means no limit at all,
and a negative limit returns a single batch of up to `|n|` documents, so for
every nonzero `n` the cursor yields the first `n.natAbs` results. -/
def mongoLimit (n : Int) (xs : List Souvenir) : List Souvenir :=
  if n = 0 then xs else xs.take n.natAbs

/-- Embedding of `getTopRatingSouvenirs(n)` (src/queries.js lines 61-66):
`find().sort(\x7b rating: -1 \x7d).limit(n)`. -/
def getTopRatingSouvenirs (n : Int) (db : DB) : List Souvenir :=
  mongoLimit n (db.souvenirs.mergeSort ratingGe)

/-- Token of the modelled fragment of MongoDB `$regex` patterns: the `.`
metacharacter (matches any single character) or a literal character. -/
inductive RTok where
  | dot
  | lit (c : Char)
deriving DecidableEq, Repr

/-- Parse of a pattern string in the modelled `$regex` fragment: `.` becomes
the wildcard token, every other character a literal.  The model is faithful
for patterns whose characters avoid the remaining PCRE metacharacters. -/
def parseRegex (s : String) : List RTok :=
  s.toList.map (fun c => if c = '.' then RTok.dot else RTok.lit c)

/-- Case-insensitive match of a pattern against the start of a character list
(the `i` option of `$regex` lowercases both sides of a literal comparison). -/
def rmatchHere : List RTok → List Char → Bool
  | [], _ => true
  | _ :: _, [] => false
  | RTok.dot :: ps, _ :: cs => rmatchHere ps cs
  | RTok.lit c :: ps, d :: cs => (c.toLower == d.toLower) && rmatchHere ps cs

/-- Case-insensitive regex search: the pattern matches at some position of the
subject, as MongoDB `$regex` is an unanchored search. -/
def rsearch (p : List RTok) : List Char → Bool
  | [] => rmatchHere p []
  | c :: cs => rmatchHere p (c :: cs) || rsearch p cs

/-- Embedding of the filter `\x7b name: \x7b $regex: substring, $options: 'i' \x7d \x7d`:
case-insensitive unanchored regex test of the pattern against a name. -/
def regexTestI (pattern name : String) : Bool :=
  rsearch (parseRegex pattern) name.toList

/-- Embedding of `searchSouvenirs(substring)` (src/queries.js lines 92-95):
the caller-supplied substring is passed to the store as a regex pattern. -/
def searchSouvenirs (substring : String) (db : DB) : List Souvenir :=
  db.souvenirs.filter (fun s => regexTestI substring s.name)

/-- Lowercased character list of a string; helper for the specification-side
notion of case-insensitive literal containment. -/
def lowerChars (s : String) : List Char := s.toList.map Char.toLower

/-- Literal match of a character list against the start of another. -/
def firstSeg : List Char → List Char → Bool
  | [], _ => true
  | _ :: _, [] => false
  | a :: ps, b :: cs => (a == b) && firstSeg ps cs

/-- Literal containment of a character list somewhere in another. -/
def hasSeg (p : List Char) : List Char → Bool
  | [] => firstSeg p []
  | c :: cs => firstSeg p (c :: cs) || hasSeg p cs

/-- Modelled from the spec: the claim's notion that `substring` occurs in
`name` as a case-insensitive literal substring (no regex interpretation). -/
def containsCI (sub name : String) : Bool := hasSeg (lowerChars sub) (lowerChars name)

/-- PCRE metacharacters: patterns avoiding all of these are literal searches. -/
def regexMetachars : List Char :=
  ['.', '^', '$', '*', '+', '?', '(', ')', '[', ']', '\x7b', '\x7d', '|', '\\']

/-- Embedding of `getDisscusedSouvenirs(date)` (src/queries.js lines 99-102):
the filter `\x7b 'reviews.0.date': \x7b $gte: date \x7d \x7d` matches a document
exactly when the element at index 0 of its `reviews` array exists and its
`date` field is ≥ the argument; a missing path never satisfies `$gte`. -/
def getDisscusedSouvenirs (date : Int) (db : DB) : List Souvenir :=
  db.souvenirs.filter (fun s =>
    match s.reviews with
    | [] => false
    | r :: _ => decide (date ≤ r.date))

/-- Embedding of `deleteOutOfStockSouvenirs()` (src/queries.js lines 109-112):
`deleteMany(\x7b amount: 0 \x7d)` removes every souvenir whose `amount` equals 0
and reports how many it removed. -/
def deleteOutOfStockSouvenirs (db : DB) : DeleteResult × DB :=
  let deleted := db.souvenirs.filter (fun s => decide (s.amount = 0))
  ({ acknowledged := true, deletedCount := deleted.length },
   { db with souvenirs := db.souvenirs.filter (fun s => !(decide (s.amount = 0))) })

/-- Review document written by `addReview`'s `$push` (src/queries.js line 124):
the pushed subdocument carries exactly the fields `login`, `id`, `text`,
`rating`, `date`; `isApproved` is not among them and the schema supplies no
default, so the stored review lacks the field (`isApproved := none`). -/
def mkReview (id : String) (date : Int) (login : String) (rating : ℚ)
    (text : String) : Review :=
  { id := id, login := login, date := date, text := text, rating := rating,
    isApproved := none }

/-- Embedding of `findOneAndUpdate(\x7b _id \x7d, \x7b $push: \x7b reviews: r \x7d \x7d)`:
appends `r` to the `reviews` array of the first document whose `_id` matches;
a no-op when no document matches. -/
def pushReview (souvenirId : Nat) (r : Review) : List Souvenir → List Souvenir
  | [] => []
  | s :: rest =>
      if s._id = souvenirId then { s with reviews := s.reviews ++ [r] } :: rest
      else s :: pushReview souvenirId r rest

/-- Embedding of `findOneAndUpdate(\x7b _id \x7d, \x7b $set: \x7b rating \x7d \x7d)`:
sets the `rating` field of the first document whose `_id` matches. -/
def setRating (souvenirId : Nat) (q : ℚ) : List Souvenir → List Souvenir
  | [] => []
  | s :: rest =>
      if s._id = souvenirId then { s with rating := q } :: rest
      else s :: setRating souvenirId q rest

/-- Sum of the `rating` fields of a list of reviews. -/
def ratingsSum (rs : List Review) : ℚ := (rs.map (fun r => r.rating)).sum

/-- Embedding of `addReview`'s aggregation pipeline (src/queries.js
lines 126-140): `$match` on `_id`, `$unwind` of `reviews`, `$replaceRoot`,
then `$group` with `$avg` of the ratings.  `$unwind` drops a document whose
array is empty and `$group` over zero rows emits no row, so the output is
empty exactly when no matched document has a review; otherwise it is the one
row holding the average rating. -/
def avgAggregate (souvenirId : Nat) (ss : List Souvenir) : List ℚ :=
  let rows := ((ss.filter (fun s => decide (s._id = souvenirId))).map
    (fun s => s.reviews)).flatten
  if rows.isEmpty then [] else [ratingsSum rows / (rows.length : ℚ)]

/-- Embedding of `addReview(souvenirId, \x7b login, rating, text \x7d)`
(src/queries.js lines 120-145).  The uuid `id` and current date `date` that
the source generates are explicit parameters.  Step 1 pushes the new review;
step 2 aggregates the average rating; the source then reads
`aggregateResult[0].rating`, which on an empty aggregate dereferences a
property of `undefined` and raises a TypeError; step 3 persists the average
into the `rating` field. -/
def addReview (db : DB) (souvenirId : Nat) (login : String) (rating : ℚ)
    (text : String) (id : String) (date : Int) : Except QueryError DB :=
  let r := mkReview id date login rating text
  let souvenirs1 := pushReview souvenirId r db.souvenirs
  match avgAggregate souvenirId souvenirs1 with
  | [] => Except.error QueryError.typeError
  | newRating :: _ =>
      Except.ok { db with souvenirs := setRating souvenirId newRating souvenirs1 }

/-- Embedding of `getCartSum`'s aggregation pipeline (src/queries.js
lines 151-174): `$match` on `login`, `$unwind` of `items`, `$replaceRoot`,
`$lookup` of the souvenirs collection by `souvenirId` against `_id`,
`$unwind` of the looked-up array (dropping items whose reference does not
resolve), then `$group` summing `price * amount`.  `$group` over zero rows
emits no row. -/
def cartAggregate (db : DB) (login : String) : List ℚ :=
  let rows := (((db.carts.filter (fun c => c.login = login)).map
      (fun c => c.items)).flatten.map
    (fun it => (db.souvenirs.filter (fun s => decide (s._id = it.souvenirId))).map
      (fun s => s.price * it.amount))).flatten
  if rows.isEmpty then [] else [rows.sum]

/-- Embedding of `getCartSum(login)` (src/queries.js lines 150-177): runs the
pipeline and returns `result[0].cost`; on an empty pipeline output this
dereferences a property of `undefined` and raises a TypeError. -/
def getCartSum (db : DB) (login : String) : Except QueryError ℚ :=
  match cartAggregate db login with
  | [] => Except.error QueryError.typeError
  | cost :: _ => Except.ok cost

/-- Modelled from the spec: cost contribution of one cart item, the claim's
reading of the inner join — `price * amount` when the referenced souvenir
exists, 0 when the reference dangles. -/
def itemCost (db : DB) (it : CartItem) : ℚ :=
  match db.souvenirs.find? (fun s => decide (s._id = it.souvenirId)) with
  | some s => s.price * it.amount
  | none => 0

/-- Example review used by the concrete store fixtures. -/
def exReview0 : Review :=
  { id := "r0", login := "alice", date := 5, text := "ok", rating := 2,
    isApproved := some true }

/-- Example souvenir with one review, referenced by the example cart. -/
def exSouvenirA : Souvenir :=
  { _id := 1, name := "Paris mug", tags := ["mug"], reviews := [exReview0],
    image := "a.png", price := 5, amount := 2, country := "FR", rating := 2,
    isRecent := false }

/-- Example souvenir with no reviews and zero stock. -/
def exSouvenirB : Souvenir :=
  { _id := 2, name := "ab", tags := [], reviews := [], image := "b.png",
    price := 3, amount := 0, country := "RU", rating := 0, isRecent := true }

/-- Example cart whose single item resolves to `exSouvenirA`. -/
def exCart : Cart := { login := "alice", items := [{ souvenirId := 1, amount := 2 }] }

/-- Example cart whose single item references no existing souvenir. -/
def exCartDangling : Cart := { login := "carol", items := [{ souvenirId := 99, amount := 1 }] }

/-- Concrete store fixture used by witnesses and counterexamples. -/
def exDB : DB := { souvenirs := [exSouvenirA, exSouvenirB], carts := [exCart, exCartDangling] }

/-- Accessor for concrete statements about the review `addReview` appends:
the `isApproved` field of the last review of the document with the given id
in a successful result (`none` when the field is absent). -/
def lastReviewApproval (res : Except QueryError DB) (sid : Nat) : Option (Option Bool) :=
  match res with
  | Except.error _ => none
  | Except.ok db' =>
      match db'.souvenirs.find? (fun s => decide (s._id = sid)) with
      | none => none
      | some s => s.reviews.getLast?.map (fun r => r.isApproved)

/-- C9: `getDisscusedSouvenirs d` returns exactly the souvenirs whose first
review (index 0 of the ordered review sequence) has date ≥ d; in particular a
souvenir with zero reviews never appears, and one whose first review predates
d never appears regardless of the dates of later reviews. -/
theorem getDisscusedSouvenirs_mem_iff (d : Int) (db : DB) (s : Souvenir) :
    s ∈ getDisscusedSouvenirs d db ↔
      s ∈ db.souvenirs ∧ ∃ r rs, s.reviews = r :: rs ∧ d ≤ r.date := by
  simp only [getDisscusedSouvenirs, List.mem_filter]
  cases hrev : s.reviews with
  | nil => simp [hrev]
  | cons r rs =>
      simp only [hrev, decide_eq_true_eq, and_congr_right_iff]
      intro _
      constructor
      · intro h
        exact ⟨r, rs, rfl, h⟩
      · rintro ⟨r', rs', heq, hd⟩
        cases heq
        exact hd

/-- C8: `deleteOutOfStockSouvenirs` deletes exactly the souvenirs whose amount
is exactly 0, reports `acknowledged = true` and `deletedCount` equal to the
number of souvenirs deleted, leaves the carts untouched, and is idempotent: an
immediately repeated call succeeds with `deletedCount = 0` and changes
nothing. -/
theorem deleteOutOfStockSouvenirs_spec (db : DB) :
    ((deleteOutOfStockSouvenirs db).1.acknowledged = true) ∧
    ((deleteOutOfStockSouvenirs db).1.deletedCount =
      db.souvenirs.countP (fun s => decide (s.amount = 0))) ∧
    (∀ s, s ∈ (deleteOutOfStockSouvenirs db).2.souvenirs ↔
      s ∈ db.souvenirs ∧ s.amount ≠ 0) ∧
    ((deleteOutOfStockSouvenirs db).2.carts = db.carts) ∧
    ((deleteOutOfStockSouvenirs (deleteOutOfStockSouvenirs db).2).1.acknowledged = true) ∧
    ((deleteOutOfStockSouvenirs (deleteOutOfStockSouvenirs db).2).1.deletedCount = 0) ∧
    ((deleteOutOfStockSouvenirs (deleteOutOfStockSouvenirs db).2).2 =
      (deleteOutOfStockSouvenirs db).2) := by
  refine ⟨rfl, ?_, ?_, rfl, rfl, ?_, ?_⟩
  · simp [deleteOutOfStockSouvenirs, List.countP_eq_length_filter]
  · intro s
    simp [deleteOutOfStockSouvenirs, List.mem_filter]
  · simp [deleteOutOfStockSouvenirs, List.filter_filter]
  · simp [deleteOutOfStockSouvenirs, List.filter_filter]

/-- C6 counterexample: the claim says `getTopRatingSouvenirs n` is empty
whenever n ≤ 0, but MongoDB treats `limit(0)` as no limit, so at n = 0 the
call returns the whole (two-element) catalog. -/
theorem getTopRatingSouvenirs_zero_cex :
    (getTopRatingSouvenirs 0 exDB).length ≠ 0 := by
  simp [getTopRatingSouvenirs, mongoLimit, List.length_mergeSort, exDB]

/-- C6 amended: `getTopRatingSouvenirs n` is always sorted by rating
descending; its length is min(n, |catalog|) when n > 0, the full catalog size
when n = 0 (Mongo's `limit(0)` means no limit), and min(|n|, |catalog|) when
n < 0 (a negative limit returns a single batch of up to |n| documents). -/
theorem getTopRatingSouvenirs_length_sorted (n : Int) (db : DB) :
    (getTopRatingSouvenirs n db).length =
      (if n = 0 then db.souvenirs.length else min n.natAbs db.souvenirs.length) ∧
    (getTopRatingSouvenirs n db).Pairwise (fun a b => b.rating ≤ a.rating) := by
  have htrans : ∀ a b c : Souvenir, ratingGe a b = true → ratingGe b c = true →
      ratingGe a c = true := by
    intro a b c hab hbc
    simp only [ratingGe, decide_eq_true_eq] at *
    exact le_trans hbc hab
  have htotal : ∀ a b : Souvenir, (ratingGe a b || ratingGe b a) = true := by
    intro a b
    simp only [ratingGe, Bool.or_eq_true, decide_eq_true_eq]
    exact le_total b.rating a.rating
  have hsorted := List.sorted_mergeSort htrans htotal db.souvenirs
  constructor
  · by_cases h0 : n = 0
    · simp [getTopRatingSouvenirs, mongoLimit, h0, List.length_mergeSort]
    · simp [getTopRatingSouvenirs, mongoLimit, h0, List.length_mergeSort]
  · have hpair : (db.souvenirs.mergeSort ratingGe).Pairwise
        (fun a b => b.rating ≤ a.rating) := by
      refine hsorted.imp ?_
      intro a b h
      simpa [ratingGe, decide_eq_true_eq] using h
    by_cases h0 : n = 0
    · simpa [getTopRatingSouvenirs, mongoLimit, h0] using hpair
    · simp only [getTopRatingSouvenirs, mongoLimit, h0, if_false]
      exact hpair.sublist (List.take_sublist _ _)

/-- Matching a pattern of pure literals against a prefix of the subject is the
case-insensitive literal comparison of the two lowercased lists. -/
theorem rmatchHere_lit_eq (ps : List Char) (cs : List Char) :
    rmatchHere (ps.map RTok.lit) cs =
      firstSeg (ps.map Char.toLower) (cs.map Char.toLower) := by
  induction ps generalizing cs with
  | nil => cases cs <;> rfl
  | cons p ps ih =>
      cases cs with
      | nil => rfl
      | cons c cs' => simp [rmatchHere, firstSeg, ih]

/-- Searching a pattern of pure literals is case-insensitive literal
containment of the lowercased pattern in the lowercased subject. -/
theorem rsearch_lit_eq (ps : List Char) (cs : List Char) :
    rsearch (ps.map RTok.lit) cs =
      hasSeg (ps.map Char.toLower) (cs.map Char.toLower) := by
  induction cs with
  | nil => simp [rsearch, hasSeg, rmatchHere_lit_eq]
  | cons c cs' ih => simp [rsearch, hasSeg, rmatchHere_lit_eq, ih]

/-- Parsing a pattern that contains no `.` yields only literal tokens. -/
theorem parseList_no_dot (l : List Char) (h : ∀ c ∈ l, c ≠ '.') :
    l.map (fun c => if c = '.' then RTok.dot else RTok.lit c) = l.map RTok.lit := by
  induction l with
  | nil => rfl
  | cons c cs ih =>
      simp [h c (by simp), ih (fun x hx => h x (by simp [hx]))]

/-- On patterns free of PCRE metacharacters, the code's case-insensitive regex
test coincides with case-insensitive literal substring containment. -/
theorem regexTestI_eq_containsCI (sub name : String)
    (hm : ∀ c ∈ sub.toList, c ∉ regexMetachars) :
    regexTestI sub name = containsCI sub name := by
  have hdot : ∀ c ∈ sub.toList, c ≠ '.' := by
    intro c hc heq
    exact hm c hc (by simp [heq, regexMetachars])
  unfold regexTestI containsCI lowerChars parseRegex
  rw [parseList_no_dot _ hdot, rsearch_lit_eq]

/-- C7 counterexample: the claim reads the argument as a literal substring,
but the code hands it to the store as a regex pattern: the pattern "." matches
the souvenir named "ab" (the wildcard matches any character) even though "ab"
does not contain "." as a literal substring. -/
theorem searchSouvenirs_regex_cex :
    exSouvenirB ∈ searchSouvenirs "." exDB ∧
    containsCI "." exSouvenirB.name = false := by
  decide

/-- C7 amended: `searchSouvenirs` treats its argument as a case-insensitive
regex pattern; whenever the argument contains no regex metacharacter the
result is exactly the souvenirs whose name contains it as a case-insensitive
literal substring (the empty argument, being metacharacter-free and contained
in every name, matches every souvenir), but metacharacters are interpreted by
the regex engine rather than literally. -/
theorem searchSouvenirs_literal_of_no_meta (substring : String) (db : DB)
    (s : Souvenir) (hm : ∀ c ∈ substring.toList, c ∉ regexMetachars) :
    s ∈ searchSouvenirs substring db ↔
      s ∈ db.souvenirs ∧ containsCI substring s.name = true := by
  simp [searchSouvenirs, List.mem_filter, regexTestI_eq_containsCI substring s.name hm]

/-- C7 witness: with the metacharacter-free argument "mug", the souvenir named
"Paris mug" is returned and the characterisation applies to it. -/
theorem searchSouvenirs_literal_of_no_meta_witness :
    (∀ c ∈ "mug".toList, c ∉ regexMetachars) ∧
    (exSouvenirA ∈ searchSouvenirs "mug" exDB ↔
      exSouvenirA ∈ exDB.souvenirs ∧ containsCI "mug" exSouvenirA.name = true) :=
  ⟨by decide, searchSouvenirs_literal_of_no_meta "mug" exDB exSouvenirA (by decide)⟩

/-- `$push` on a list in which every document before the unique match has a
different `_id` updates exactly the matching document. -/
theorem pushReview_split (sid : Nat) (r : Review) (pre post : List Souvenir)
    (s : Souvenir) (hpre : ∀ t ∈ pre, t._id ≠ sid) (hs : s._id = sid) :
    pushReview sid r (pre ++ s :: post) =
      pre ++ { s with reviews := s.reviews ++ [r] } :: post := by
  induction pre with
  | nil => simp [pushReview, hs]
  | cons a as ih =>
      have ha : a._id ≠ sid := hpre a (by simp)
      have ih' := ih (fun t ht => hpre t (by simp [ht]))
      simp [pushReview, ha, ih']

/-- `$set` of the rating on a list in which every document before the unique
match has a different `_id` updates exactly the matching document. -/
theorem setRating_split (sid : Nat) (q : ℚ) (pre post : List Souvenir)
    (s : Souvenir) (hpre : ∀ t ∈ pre, t._id ≠ sid) (hs : s._id = sid) :
    setRating sid q (pre ++ s :: post) =
      pre ++ { s with rating := q } :: post := by
  induction pre with
  | nil => simp [setRating, hs]
  | cons a as ih =>
      have ha : a._id ≠ sid := hpre a (by simp)
      have ih' := ih (fun t ht => hpre t (by simp [ht]))
      simp [setRating, ha, ih']

/-- `$match` on `_id` over a catalog holding exactly one document with that id
keeps exactly that document. -/
theorem filter_id_split (sid : Nat) (pre post : List Souvenir) (s : Souvenir)
    (hpre : ∀ t ∈ pre, t._id ≠ sid) (hpost : ∀ t ∈ post, t._id ≠ sid)
    (hs : s._id = sid) :
    (pre ++ s :: post).filter (fun t => decide (t._id = sid)) = [s] := by
  rw [List.filter_append]
  have h1 : pre.filter (fun t => decide (t._id = sid)) = [] := by
    rw [List.filter_eq_nil_iff]
    intro a ha
    simpa using hpre a ha
  have h2 : post.filter (fun t => decide (t._id = sid)) = [] := by
    rw [List.filter_eq_nil_iff]
    intro a ha
    simpa using hpost a ha
  simp [h1, h2, List.filter_cons, hs]

/-- `$push` with a filter that matches no document of the catalog is a no-op,
exactly as `findOneAndUpdate` on a missing `_id`. -/
theorem pushReview_no_match (sid : Nat) (r : Review) (ss : List Souvenir)
    (h : ∀ t ∈ ss, t._id ≠ sid) : pushReview sid r ss = ss := by
  induction ss with
  | nil => rfl
  | cons a as ih =>
      have ha : a._id ≠ sid := h a (by simp)
      have ih' := ih (fun t ht => h t (by simp [ht]))
      simp [pushReview, ha, ih']

/-- Full description of a successful `addReview` against a catalog holding
exactly one document with the target id: the call returns the store in which
that document has the new review appended and its rating set to the average
of the ratings of the extended review sequence, all else unchanged. -/
theorem addReview_split (pre post : List Souvenir) (s : Souvenir)
    (carts : List Cart) (sid : Nat) (login : String) (rating : ℚ)
    (text : String) (id : String) (date : Int)
    (hpre : ∀ t ∈ pre, t._id ≠ sid) (hpost : ∀ t ∈ post, t._id ≠ sid)
    (hs : s._id = sid) :
    addReview ⟨pre ++ s :: post, carts⟩ sid login rating text id date =
      Except.ok ⟨pre ++ { s with
          reviews := s.reviews ++ [mkReview id date login rating text],
          rating := ratingsSum (s.reviews ++ [mkReview id date login rating text]) /
            (((s.reviews ++ [mkReview id date login rating text]).length : ℕ) : ℚ) }
        :: post, carts⟩ := by
  have hpush := pushReview_split sid (mkReview id date login rating text) pre post s hpre hs
  have hfil := filter_id_split sid pre post
    { s with reviews := s.reviews ++ [mkReview id date login rating text] } hpre hpost hs
  have hset := setRating_split sid
    (ratingsSum (s.reviews ++ [mkReview id date login rating text]) /
      (((s.reviews ++ [mkReview id date login rating text]).length : ℕ) : ℚ))
    pre post { s with reviews := s.reviews ++ [mkReview id date login rating text] }
    hpre hs
  simp only [addReview, hpush, avgAggregate, hfil, List.map_cons, List.map_nil,
    List.flatten_cons, List.flatten_nil, List.append_nil]
  have hne : (s.reviews ++ [mkReview id date login rating text]).isEmpty = false := by
    simp [List.isEmpty_eq_false]
  rw [hne]
  simp only [Bool.false_eq_true, if_false, hset]

/-- C3 amended: when no catalog document carries the target id, step 1's push
is a no-op and step 2's aggregate returns no rows, so `addReview` dereferences
the absent result and fails with the unstructured TypeError — not with the
structured NotFound error the claim requires. -/
theorem addReview_unknown_id_typeError (db : DB) (sid : Nat) (login : String)
    (rating : ℚ) (text : String) (id : String) (date : Int)
    (h : ∀ t ∈ db.souvenirs, t._id ≠ sid) :
    addReview db sid login rating text id date = Except.error QueryError.typeError := by
  have hfil : db.souvenirs.filter (fun t => decide (t._id = sid)) = [] := by
    rw [List.filter_eq_nil_iff]
    intro a ha
    simpa using h a ha
  simp [addReview, pushReview_no_match sid _ db.souvenirs h, avgAggregate, hfil]

/-- C3 counterexample: souvenirId 99 resolves to no document of the fixture
catalog, and `addReview` fails with the unstructured TypeError, not with the
structured NotFound error the claim states. -/
theorem addReview_unknown_id_cex :
    addReview exDB 99 "bob" 4 "nice" "u1" 10 = Except.error QueryError.typeError ∧
    addReview exDB 99 "bob" 4 "nice" "u1" 10 ≠ Except.error QueryError.notFound := by
  have h1 : addReview exDB 99 "bob" 4 "nice" "u1" 10 = Except.error QueryError.typeError := rfl
  refine ⟨h1, ?_⟩
  rw [h1]
  simp

/-- C3 witness: the amended statement applied to a concrete missing id. -/
theorem addReview_unknown_id_typeError_witness :
    (∀ t ∈ exDB.souvenirs, t._id ≠ 77) ∧
    addReview exDB 77 "carl" 3 "meh" "w3" 11 = Except.error QueryError.typeError :=
  ⟨by decide, addReview_unknown_id_typeError exDB 77 "carl" 3 "meh" "w3" 11 (by decide)⟩

/-- C1: for every souvenir present in the catalog (with its id unique there,
as ObjectIds are), a single-caller `addReview` succeeds and the persisted
rating of that souvenir equals the arithmetic mean of the ratings of its
resulting review sequence. -/
theorem addReview_rating_is_mean (pre post : List Souvenir) (s : Souvenir)
    (carts : List Cart) (sid : Nat) (login : String) (rating : ℚ) (text : String)
    (id : String) (date : Int)
    (hpre : ∀ t ∈ pre, t._id ≠ sid) (hpost : ∀ t ∈ post, t._id ≠ sid)
    (hs : s._id = sid) :
    ∃ db' s', addReview ⟨pre ++ s :: post, carts⟩ sid login rating text id date =
        Except.ok db' ∧
      db'.souvenirs = pre ++ s' :: post ∧ s'._id = sid ∧
      s'.rating = ratingsSum s'.reviews / (s'.reviews.length : ℚ) :=
  ⟨_, _, addReview_split pre post s carts sid login rating text id date hpre hpost hs,
    rfl, hs, rfl⟩

/-- C1 witness: the statement applied to the fixture catalog, souvenir 1. -/
theorem addReview_rating_is_mean_witness :
    (∀ t ∈ ([] : List Souvenir), t._id ≠ 1) ∧
    (∀ t ∈ [exSouvenirB], t._id ≠ 1) ∧ exSouvenirA._id = 1 ∧
    (∃ db' s', addReview ⟨[] ++ exSouvenirA :: [exSouvenirB], [exCart, exCartDangling]⟩
          1 "wlog" 4 "w" "w1id" 20 = Except.ok db' ∧
        db'.souvenirs = [] ++ s' :: [exSouvenirB] ∧ s'._id = 1 ∧
        s'.rating = ratingsSum s'.reviews / (s'.reviews.length : ℚ)) :=
  ⟨by decide, by decide, rfl,
    addReview_rating_is_mean [] [exSouvenirB] exSouvenirA [exCart, exCartDangling]
      1 "wlog" 4 "w" "w1id" 20 (by decide) (by decide) rfl⟩

/-- C2 amended: for every souvenir present in the catalog, addReview appends
exactly one review to the end of that souvenir's review sequence, carrying
the generated token id, the server-assigned date and the caller's login,
rating and text — but the appended document has no isApproved field at all
(the `$push` omits it and the schema declares no default), rather than
isApproved set to false. -/
theorem addReview_appends_unapproved_review (pre post : List Souvenir) (s : Souvenir)
    (carts : List Cart) (sid : Nat) (login : String) (rating : ℚ) (text : String)
    (id : String) (date : Int)
    (hpre : ∀ t ∈ pre, t._id ≠ sid) (hpost : ∀ t ∈ post, t._id ≠ sid)
    (hs : s._id = sid) :
    ∃ db' s', addReview ⟨pre ++ s :: post, carts⟩ sid login rating text id date =
        Except.ok db' ∧
      db'.souvenirs = pre ++ s' :: post ∧
      s'.reviews = s.reviews ++
        [{ id := id, login := login, date := date, text := text, rating := rating,
           isApproved := none }] :=
  ⟨_, _, addReview_split pre post s carts sid login rating text id date hpre hpost hs,
    rfl, rfl⟩

/-- C2 witness: the amended statement applied to the fixture catalog. -/
theorem addReview_appends_unapproved_review_witness :
    (∀ t ∈ ([] : List Souvenir), t._id ≠ 1) ∧
    (∀ t ∈ [exSouvenirB], t._id ≠ 1) ∧ exSouvenirA._id = 1 ∧
    (∃ db' s', addReview ⟨[] ++ exSouvenirA :: [exSouvenirB], [exCart, exCartDangling]⟩
          1 "dora" 5 "wow" "w2id" 21 = Except.ok db' ∧
        db'.souvenirs = [] ++ s' :: [exSouvenirB] ∧
        s'.reviews = exSouvenirA.reviews ++
          [{ id := "w2id", login := "dora", date := 21, text := "wow", rating := 5,
             isApproved := none }]) :=
  ⟨by decide, by decide, rfl,
    addReview_appends_unapproved_review [] [exSouvenirB] exSouvenirA
      [exCart, exCartDangling] 1 "dora" 5 "wow" "w2id" 21 (by decide) (by decide) rfl⟩

/-- C2 counterexample: after a concrete successful addReview, the isApproved
field of the review appended to souvenir 1 is absent (`none`), not `false` as
the claim states. -/
theorem addReview_isApproved_cex :
    lastReviewApproval (addReview exDB 1 "bob" 4 "nice" "u3" 10) 1 = some none ∧
    some (none : Option Bool) ≠ some (some false) := by
  decide

/-- C10: addReview modifies only the target souvenir's reviews (appending one
element, keeping the earlier reviews unchanged and in order) and its rating:
the carts collection, the catalog documents before and after the target, and
every other field of the target are returned unchanged. -/
theorem addReview_frame (pre post : List Souvenir) (s : Souvenir)
    (carts : List Cart) (sid : Nat) (login : String) (rating : ℚ) (text : String)
    (id : String) (date : Int)
    (hpre : ∀ t ∈ pre, t._id ≠ sid) (hpost : ∀ t ∈ post, t._id ≠ sid)
    (hs : s._id = sid) :
    ∃ db' s', addReview ⟨pre ++ s :: post, carts⟩ sid login rating text id date =
        Except.ok db' ∧
      db'.carts = carts ∧ db'.souvenirs = pre ++ s' :: post ∧
      s'.reviews = s.reviews ++ [mkReview id date login rating text] ∧
      s'._id = s._id ∧ s'.name = s.name ∧ s'.tags = s.tags ∧
      s'.image = s.image ∧ s'.price = s.price ∧ s'.amount = s.amount ∧
      s'.country = s.country ∧ s'.isRecent = s.isRecent :=
  ⟨_, _, addReview_split pre post s carts sid login rating text id date hpre hpost hs,
    rfl, rfl, rfl, rfl, rfl, rfl, rfl, rfl, rfl, rfl, rfl⟩

/-- C10 witness: the frame statement applied to the fixture catalog. -/
theorem addReview_frame_witness :
    (∀ t ∈ ([] : List Souvenir), t._id ≠ 1) ∧
    (∀ t ∈ [exSouvenirB], t._id ≠ 1) ∧ exSouvenirA._id = 1 ∧
    (∃ db' s', addReview ⟨[] ++ exSouvenirA :: [exSouvenirB], [exCart, exCartDangling]⟩
          1 "evan" 1 "bad" "w10id" 22 = Except.ok db' ∧
        db'.carts = [exCart, exCartDangling] ∧
        db'.souvenirs = [] ++ s' :: [exSouvenirB] ∧
        s'.reviews = exSouvenirA.reviews ++ [mkReview "w10id" 22 "evan" 1 "bad"] ∧
        s'._id = exSouvenirA._id ∧ s'.name = exSouvenirA.name ∧
        s'.tags = exSouvenirA.tags ∧ s'.image = exSouvenirA.image ∧
        s'.price = exSouvenirA.price ∧ s'.amount = exSouvenirA.amount ∧
        s'.country = exSouvenirA.country ∧ s'.isRecent = exSouvenirA.isRecent) :=
  ⟨by decide, by decide, rfl,
    addReview_frame [] [exSouvenirB] exSouvenirA [exCart, exCartDangling]
      1 "evan" 1 "bad" "w10id" 22 (by decide) (by decide) rfl⟩

/-- Filtering the carts by a login no cart carries yields nothing, exactly as
`$match` on a missing login. -/
theorem filter_login_no_match (login : String) (cs : List Cart)
    (h : ∀ c ∈ cs, c.login ≠ login) :
    cs.filter (fun c => c.login = login) = [] := by
  rw [List.filter_eq_nil_iff]
  intro a ha
  simpa using h a ha

/-- C5 amended: when no cart document exists for the login, the aggregation
pipeline returns no rows and `getCartSum` dereferences the absent result,
failing with the unstructured TypeError — not with the structured NotFound
error the claim requires. -/
theorem getCartSum_no_cart_typeError (db : DB) (login : String)
    (h : ∀ c ∈ db.carts, c.login ≠ login) :
    getCartSum db login = Except.error QueryError.typeError := by
  simp [getCartSum, cartAggregate, filter_login_no_match login db.carts h]

/-- C5 counterexample: no cart of the fixture belongs to "nobody", and
`getCartSum` fails with the unstructured TypeError rather than the structured
NotFound error the claim states. -/
theorem getCartSum_no_cart_cex :
    getCartSum exDB "nobody" = Except.error QueryError.typeError ∧
    getCartSum exDB "nobody" ≠ Except.error QueryError.notFound := by
  have h1 : getCartSum exDB "nobody" = Except.error QueryError.typeError := rfl
  refine ⟨h1, ?_⟩
  rw [h1]
  simp

/-- C5 witness: the amended statement applied to a concrete absent login. -/
theorem getCartSum_no_cart_typeError_witness :
    (∀ c ∈ exDB.carts, c.login ≠ "mallory") ∧
    getCartSum exDB "mallory" = Except.error QueryError.typeError :=
  ⟨by decide, getCartSum_no_cart_typeError exDB "mallory" (by decide)⟩

/-- With no duplicate ids in the catalog, `$match` by id keeps exactly the
document `find?` locates, or nothing. -/
theorem filter_id_of_nodup (ss : List Souvenir) (i : Nat)
    (h : (ss.map (fun s => s._id)).Nodup) :
    ss.filter (fun s => decide (s._id = i)) =
      (match ss.find? (fun s => decide (s._id = i)) with
        | some s => [s]
        | none => []) := by
  induction ss with
  | nil => rfl
  | cons a as ih =>
      rw [List.map_cons, List.nodup_cons] at h
      by_cases hai : a._id = i
      · have hnil : as.filter (fun s => decide (s._id = i)) = [] := by
          rw [List.filter_eq_nil_iff]
          intro t ht
          simp only [decide_eq_true_eq]
          intro hti
          exact h.1 (List.mem_map.mpr ⟨t, ht, by rw [hti, hai]⟩)
        simp [List.filter_cons, List.find?_cons, hai, hnil]
      · simp [List.filter_cons, List.find?_cons, hai, ih h.2]

/-- The looked-up rows of one cart item sum to the claim's per-item cost:
price times amount when the reference resolves, 0 when it dangles. -/
theorem rowsOf_sum (db : DB) (it : CartItem)
    (h : (db.souvenirs.map (fun s => s._id)).Nodup) :
    ((db.souvenirs.filter (fun s => decide (s._id = it.souvenirId))).map
      (fun s => s.price * it.amount)).sum = itemCost db it := by
  rw [filter_id_of_nodup db.souvenirs it.souvenirId h]
  unfold itemCost
  cases hfind : db.souvenirs.find? (fun s => decide (s._id = it.souvenirId)) with
  | none => simp
  | some s => simp

/-- C4 amended: for a login with an existing (unique) cart in which at least
one item's souvenirId resolves in the catalog, `getCartSum` returns the sum
over the cart's items of price times amount, resolving items contributing
their cost and dangling items contributing 0; but when no item resolves
(an empty cart or only dangling references), the pipeline output is empty and
the call fails with a TypeError instead of returning the sum 0. -/
theorem getCartSum_joins_prices (db : DB) (login : String) (c : Cart)
    (hc : db.carts.filter (fun k => k.login = login) = [c])
    (hnodup : (db.souvenirs.map (fun s => s._id)).Nodup)
    (hres : ∃ it ∈ c.items, ∃ s ∈ db.souvenirs, s._id = it.souvenirId) :
    getCartSum db login = Except.ok ((c.items.map (itemCost db)).sum) := by
  have hagg : cartAggregate db login = [(c.items.map (itemCost db)).sum] := by
    unfold cartAggregate
    rw [hc]
    simp only [List.map_cons, List.map_nil, List.flatten_cons, List.flatten_nil,
      List.append_nil]
    have hne : ((c.items.map (fun it =>
        (db.souvenirs.filter (fun s => decide (s._id = it.souvenirId))).map
          (fun s => s.price * it.amount))).flatten).isEmpty = false := by
      rw [List.isEmpty_eq_false]
      intro hnil
      rw [List.flatten_eq_nil_iff] at hnil
      obtain ⟨it, hit, s, hsmem, hsid⟩ := hres
      have hrow := hnil _ (List.mem_map.mpr ⟨it, hit, rfl⟩)
      rw [List.map_eq_nil_iff, List.filter_eq_nil_iff] at hrow
      exact hrow s hsmem (by simp [hsid])
    rw [hne]
    simp only [Bool.false_eq_true, if_false]
    congr 1
    rw [List.sum_flatten, List.map_map]
    exact congrArg List.sum (List.map_congr_left (fun it _ => rowsOf_sum db it hnodup))
  simp [getCartSum, hagg]

/-- C4 counterexample: "carol" has a cart whose single item references the
absent souvenir 99; the claim says the dangling item contributes 0 so the sum
0 is returned, but the inner join leaves the aggregate empty and the code
fails with a TypeError instead of returning that sum. -/
theorem getCartSum_all_dangling_cex :
    getCartSum exDB "carol" = Except.error QueryError.typeError ∧
    getCartSum exDB "carol" ≠
      Except.ok ((exCartDangling.items.map (itemCost exDB)).sum) := by
  have h1 : getCartSum exDB "carol" = Except.error QueryError.typeError := rfl
  refine ⟨h1, ?_⟩
  rw [h1]
  simp

/-- C4 witness: for "alice", whose cart holds one item of amount 2 resolving
to the souvenir priced 5, the returned sum is 10. -/
theorem getCartSum_joins_prices_witness :
    (exDB.carts.filter (fun k => k.login = "alice") = [exCart]) ∧
    ((exDB.souvenirs.map (fun s => s._id)).Nodup) ∧
    (∃ it ∈ exCart.items, ∃ s ∈ exDB.souvenirs, s._id = it.souvenirId) ∧
    getCartSum exDB "alice" = Except.ok ((exCart.items.map (itemCost exDB)).sum) ∧
    (exCart.items.map (itemCost exDB)).sum = 10 :=
  ⟨by decide, by decide, by decide,
    getCartSum_joins_prices exDB "alice" exCart (by decide) (by decide) (by decide),
    by norm_num [exCart, exDB, itemCost, exSouvenirA, exSouvenirB, List.find?_cons]⟩
